import Mathlib

/-!
Verification of the comparison-runner script `apikey-client.py`.

The script connects to an MCP tool provider, lists its tools, reshapes the
tool descriptors into OpenAI function-calling schema entries (substituting a
default schema when a descriptor's input schema is falsy), invokes the
completion endpoint twice on the same user query (once with the function
schemas, once without), executes a tool call if the first reply requests one,
and returns a comparison dictionary.

The embedding below translates the body of `MCPClientDemo.run` into a Lean
function over an explicit environment of external oracles (the handshake, the
tool listing, the completion endpoint, the JSON argument parse, and the tool
table).  `run` returns the result of the script together with the trace of
external calls it performed, so that ordering and non-invocation properties
are statable.
-/

namespace ApikeyClient

/-- JSON values, the structured data exchanged with the endpoint and tools. -/
inductive Json where
  | null : Json
  | bool : Bool → Json
  | num : Int → Json
  | str : String → Json
  | arr : List Json → Json
  | obj : List (String × Json) → Json

/-- Python truthiness of a JSON value: None, False, 0, empty string, empty
list and empty dict are falsy, everything else is truthy. -/
def pyTruthy : Json → Bool
  | Json.null => false
  | Json.bool b => b
  | Json.num n => n != 0
  | Json.str s => s != ""
  | Json.arr xs => !xs.isEmpty
  | Json.obj kvs => !kvs.isEmpty

/-- Python `x or d` for an optional string: `None` and the empty string give
the default. -/
def pyStrOr : Option String → String → String
  | none, d => d
  | some s, d => if s == "" then d else s

/-- A tool descriptor as returned by `session.list_tools()`: name,
optional description, and input schema (`Json.null` models a missing one). -/
structure Tool where
  name : String
  description : Option String
  inputSchema : Json

/-- The default fallback parameter schema hardcoded in the loop over tools
(lines 45-51 of the source): an object schema with a single required string
field `city_name`. -/
def defaultSchema : Json :=
  Json.obj
    [ ("type", Json.str "object")
    , ("properties", Json.obj
        [ ("city_name", Json.obj
            [ ("type", Json.str "string")
            , ("description", Json.str "城市名称") ]) ])
    , ("required", Json.arr [Json.str "city_name"]) ]

/-- One entry of the `functions` list handed to the completion endpoint. -/
structure FunctionEntry where
  name : String
  description : String
  parameters : Json

/-- The reshaping of one tool descriptor into a function-call schema entry,
as done by the loop in lines 40-52 of the source: name copied, description
defaulted to the empty string by `or`, parameters defaulted to
`defaultSchema` by `or` (hence by truthiness). -/
def toFunction (tool : Tool) : FunctionEntry :=
  { name := tool.name
  , description := pyStrOr tool.description ""
  , parameters := if pyTruthy tool.inputSchema then tool.inputSchema else defaultSchema }

/-- A function-call request inside a model reply: tool name and the raw
JSON-encoded argument string. -/
structure FunctionCallMsg where
  name : String
  arguments : String

/-- A chat completion reply message: optional text content and an optional
function-call request. -/
structure Message where
  content : Option String
  function_call : Option FunctionCallMsg

/-- A request to the completion endpoint: model identifier, message list
(role, content pairs), optional functions list, optional function_call
directive. -/
structure CompletionRequest where
  model : String
  messages : List (String × String)
  functions : Option (List FunctionEntry)
  function_call : Option String

/-- The error kinds that can abort a run (section 7 of the spec). -/
inductive Err where
  | connectionError : String → Err
  | endpointError : String → Err
  | argumentParseError : String → Err
  | toolInvocationError : String → Err

/-- The values held by the Python result dictionaries. -/
inductive PyVal where
  | none : PyVal
  | str : String → PyVal
  | json : Json → PyVal
  | dict : List (String × PyVal) → PyVal

/-- Python `d[k] = v` on an insertion-ordered dictionary: replace in place if
the key is present, append otherwise. -/
def dictSet (d : List (String × PyVal)) (k : String) (v : PyVal) : List (String × PyVal) :=
  if d.any (fun p => p.fst == k) then
    d.map (fun p => if p.fst == k then (k, v) else p)
  else d ++ [(k, v)]

/-- Python `d.update(us)`: apply `dictSet` for each update pair in order. -/
def dictUpdate (d : List (String × PyVal)) (us : List (String × PyVal)) : List (String × PyVal) :=
  us.foldl (fun acc p => dictSet acc p.fst p.snd) d

/-- Python `d.get(k)`: the value at the first occurrence of the key. -/
def dictGet (d : List (String × PyVal)) (k : String) : Option PyVal :=
  (d.find? (fun p => p.fst == k)).map Prod.snd

/-- The environment of external effects `run` interacts with: the handshake
result, the tool listing, the completion endpoint, the JSON parse of
argument payloads (modelling `json.loads`, `none` meaning it raises), and
the tool provider's registry mapping tool names to implementations. -/
structure Env where
  handshake : Except Err Unit
  listTools : Except Err (List Tool)
  complete : CompletionRequest → Except Err Message
  parse : String → Option Json
  toolTable : List (String × (Json → Except Err Json))

/-- Modelled from the spec: the tool channel's `call_tool` (section 4.1),
whose implementation lives in the MCP client library and the tool-provider
process, not in `src/`.  It returns the named tool's result value, or fails
with a `ToolInvocationError` when the tool name is unknown to the provider
or the tool itself fails. -/
def callTool (env : Env) (name : String) (args : Json) : Except Err Json :=
  match env.toolTable.find? (fun p => p.fst == name) with
  | Option.none => Except.error (Err.toolInvocationError name)
  | Option.some p => p.snd args

/-- Observable external calls performed by a run, in order. -/
inductive Event where
  | init : Event
  | listTools : Event
  | complete : CompletionRequest → Event
  | callTool : String → Json → Event

/-- The first completion request (lines 58-63): the hardcoded model, the
single user message, the derived functions list, directive `auto`. -/
def firstReq (q : String) (tools : List Tool) : CompletionRequest :=
  { model := "qwen2.5-1.5b-instruct"
  , messages := [("user", q)]
  , functions := Option.some (tools.map toFunction)
  , function_call := Option.some "auto" }

/-- The second completion request (lines 89-93): same model, same single
user message, no functions list, no function_call directive. -/
def secondReq (q : String) : CompletionRequest :=
  { model := "qwen2.5-1.5b-instruct"
  , messages := [("user", q)]
  , functions := Option.none
  , function_call := Option.none }

/-- The trace of external calls up to and including the first completion. -/
def trace1 (q : String) (tools : List Tool) : List Event :=
  [Event.init, Event.listTools, Event.complete (firstReq q tools)]

/-- A message content as stored in a result dictionary. -/
def contentVal : Option String → PyVal
  | Option.none => PyVal.none
  | Option.some s => PyVal.str s

/-- The `result_with_tool` dictionary as first constructed (lines 66-70):
`model_reply` from the message content, `tool_called` and `tool_result`
bound to None, and no `tool_arguments` key. -/
def withToolInit (m : Message) : List (String × PyVal) :=
  [ ("model_reply", contentVal m.content)
  , ("tool_called", PyVal.none)
  , ("tool_result", PyVal.none) ]

/-- The update applied to `result_with_tool` after a tool call
(lines 79-83). -/
def toolUpdates (name : String) (args res : Json) : List (String × PyVal) :=
  [ ("tool_called", PyVal.str name)
  , ("tool_arguments", PyVal.json args)
  , ("tool_result", PyVal.json res) ]

/-- The comparison dictionary returned on success (lines 100-104). -/
def mkResult (q : String) (wmt : List (String × PyVal)) (msg2 : Message) : PyVal :=
  PyVal.dict
    [ ("user_query", PyVal.str q)
    , ("with_mcp_tool", PyVal.dict wmt)
    , ("without_tool", PyVal.dict [("model_reply", contentVal msg2.content)]) ]

/-- The tail of the run from the second completion call onward
(lines 89-104): errors of the second call propagate; on success the
comparison dictionary is assembled. -/
def finish (env : Env) (q : String) (wmt : List (String × PyVal)) (tr : List Event) :
    Except Err PyVal × List Event :=
  match env.complete (secondReq q) with
  | Except.error e => (Except.error e, tr ++ [Event.complete (secondReq q)])
  | Except.ok msg2 => (Except.ok (mkResult q wmt msg2), tr ++ [Event.complete (secondReq q)])

/-- The body of `MCPClientDemo.run` (lines 21-104), over the environment of
external oracles.  Every external failure propagates: there is no catch in
the source.  The second component is the trace of external calls made. -/
def run (env : Env) (q : String) : Except Err PyVal × List Event :=
  match env.handshake with
  | Except.error e => (Except.error e, [Event.init])
  | Except.ok _ =>
  match env.listTools with
  | Except.error e => (Except.error e, [Event.init, Event.listTools])
  | Except.ok tools =>
  match env.complete (firstReq q tools) with
  | Except.error e => (Except.error e, trace1 q tools)
  | Except.ok msg1 =>
  match msg1.function_call with
  | Option.none => finish env q (withToolInit msg1) (trace1 q tools)
  | Option.some fc =>
  match env.parse fc.arguments with
  | Option.none => (Except.error (Err.argumentParseError fc.arguments), trace1 q tools)
  | Option.some args =>
  match callTool env fc.name args with
  | Except.error e => (Except.error e, trace1 q tools ++ [Event.callTool fc.name args])
  | Except.ok res =>
      finish env q (dictUpdate (withToolInit msg1) (toolUpdates fc.name args res))
        (trace1 q tools ++ [Event.callTool fc.name args])

/-! Concrete sample data used by the witness theorems. -/

/-- A tool descriptor carrying its own (truthy) input schema. -/
def weatherTool : Tool :=
  { name := "get_weather"
  , description := Option.some "query the weather of a city"
  , inputSchema := Json.obj
      [ ("type", Json.str "object")
      , ("properties", Json.obj [("city", Json.obj [("type", Json.str "string")])]) ] }

/-- A tool descriptor with no input schema at all. -/
def bareTool : Tool :=
  { name := "get_weather", description := Option.none, inputSchema := Json.null }

/-- A tool descriptor whose input schema is present but the empty object. -/
def emptyTool : Tool :=
  { name := "get_weather", description := Option.some "d", inputSchema := Json.obj [] }

/-- Parsed arguments of a well-formed tool-call payload. -/
def cityArgs : Json := Json.obj [("city_name", Json.str "Shenzhen")]

/-- A first reply with no function-call request. -/
def msgNoCall : Message :=
  { content := Option.some "a generic answer", function_call := Option.none }

/-- A first reply requesting a tool call with a well-formed payload. -/
def msgCall : Message :=
  { content := Option.none
  , function_call := Option.some { name := "get_weather", arguments := "city payload" } }

/-- A first reply requesting a tool call with a malformed payload. -/
def msgBadCall : Message :=
  { content := Option.none
  , function_call := Option.some { name := "get_weather", arguments := "garbage" } }

/-- A first reply naming a tool the provider does not register. -/
def msgUnknownCall : Message :=
  { content := Option.none
  , function_call := Option.some { name := "get_time", arguments := "city payload" } }

/-- The second reply, produced by the call without functions. -/
def msgPlain : Message :=
  { content := Option.some "cannot access live weather", function_call := Option.none }

/-- A sample `json.loads` oracle: one well-formed payload, all else raises. -/
def sampleParse : String → Option Json :=
  fun s => if s == "city payload" then Option.some cityArgs else Option.none

/-- An environment whose first reply makes no function call. -/
def envNoCall : Env :=
  { handshake := Except.ok ()
  , listTools := Except.ok [weatherTool]
  , complete := fun req =>
      if req.functions.isSome then Except.ok msgNoCall else Except.ok msgPlain
  , parse := sampleParse
  , toolTable := [("get_weather", fun _ => Except.ok (Json.str "sunny"))] }

/-- An environment whose first reply requests a successful tool call. -/
def envCall : Env :=
  { envNoCall with complete := fun req =>
      if req.functions.isSome then Except.ok msgCall else Except.ok msgPlain }

/-- An environment whose first reply carries a malformed argument payload. -/
def envBadArgs : Env :=
  { envNoCall with complete := fun req =>
      if req.functions.isSome then Except.ok msgBadCall else Except.ok msgPlain }

/-- An environment whose first reply names an unknown tool. -/
def envUnknown : Env :=
  { envNoCall with complete := fun req =>
      if req.functions.isSome then Except.ok msgUnknownCall else Except.ok msgPlain }

/-- Characterisation of a successful run: every external step succeeded, and
the result and trace are fully determined by the branch taken on the first
reply's function-call field. -/
theorem run_ok_shape (env : Env) (q : String) (r : PyVal) (tr : List Event)
    (h : run env q = (Except.ok r, tr)) :
    ∃ tools msg1 msg2,
      env.handshake = Except.ok () ∧
      env.listTools = Except.ok tools ∧
      env.complete (firstReq q tools) = Except.ok msg1 ∧
      env.complete (secondReq q) = Except.ok msg2 ∧
      ((msg1.function_call = Option.none ∧
          r = mkResult q (withToolInit msg1) msg2 ∧
          tr = trace1 q tools ++ [Event.complete (secondReq q)]) ∨
        (∃ fc args res,
          msg1.function_call = Option.some fc ∧
          env.parse fc.arguments = Option.some args ∧
          callTool env fc.name args = Except.ok res ∧
          r = mkResult q (dictUpdate (withToolInit msg1) (toolUpdates fc.name args res)) msg2 ∧
          tr = trace1 q tools ++ [Event.callTool fc.name args, Event.complete (secondReq q)])) := by
  rcases hh : env.handshake with e | u
  · have hr : run env q = (Except.error e, [Event.init]) := by simp [run, hh]
    rw [hr] at h
    simp at h
  rcases hl : env.listTools with e | tools
  · have hr : run env q = (Except.error e, [Event.init, Event.listTools]) := by
      simp [run, hh, hl]
    rw [hr] at h
    simp at h
  rcases hc1 : env.complete (firstReq q tools) with e | msg1
  · have hr : run env q = (Except.error e, trace1 q tools) := by simp [run, hh, hl, hc1]
    rw [hr] at h
    simp at h
  rcases hfc : msg1.function_call with _ | fc
  · rcases hc2 : env.complete (secondReq q) with e | msg2
    · have hr : run env q =
          (Except.error e, trace1 q tools ++ [Event.complete (secondReq q)]) := by
        simp [run, hh, hl, hc1, hfc, finish, hc2]
      rw [hr] at h
      simp at h
    · have hr : run env q =
          (Except.ok (mkResult q (withToolInit msg1) msg2),
            trace1 q tools ++ [Event.complete (secondReq q)]) := by
        simp [run, hh, hl, hc1, hfc, finish, hc2]
      rw [hr] at h
      rw [Prod.mk.injEq] at h
      obtain ⟨h1, h2⟩ := h
      obtain rfl := Except.ok.inj h1
      exact ⟨tools, msg1, msg2, rfl, rfl, hc1, rfl, Or.inl ⟨hfc, rfl, h2.symm⟩⟩
  · rcases hp : env.parse fc.arguments with _ | args
    · have hr : run env q =
          (Except.error (Err.argumentParseError fc.arguments), trace1 q tools) := by
        simp [run, hh, hl, hc1, hfc, hp]
      rw [hr] at h
      simp at h
    rcases hct : callTool env fc.name args with e | res
    · have hr : run env q =
          (Except.error e, trace1 q tools ++ [Event.callTool fc.name args]) := by
        simp [run, hh, hl, hc1, hfc, hp, hct]
      rw [hr] at h
      simp at h
    rcases hc2 : env.complete (secondReq q) with e | msg2
    · have hr : run env q =
          (Except.error e,
            trace1 q tools ++ [Event.callTool fc.name args, Event.complete (secondReq q)]) := by
        simp [run, hh, hl, hc1, hfc, hp, hct, finish, hc2]
      rw [hr] at h
      simp at h
    · have hr : run env q =
          (Except.ok (mkResult q
              (dictUpdate (withToolInit msg1) (toolUpdates fc.name args res)) msg2),
            trace1 q tools ++ [Event.callTool fc.name args, Event.complete (secondReq q)]) := by
        simp [run, hh, hl, hc1, hfc, hp, hct, finish, hc2]
      rw [hr] at h
      rw [Prod.mk.injEq] at h
      obtain ⟨h1, h2⟩ := h
      obtain rfl := Except.ok.inj h1
      exact ⟨tools, msg1, msg2, rfl, rfl, hc1, rfl,
        Or.inr ⟨fc, args, res, hfc, hp, hct, rfl, h2.symm⟩⟩

/-- C1: For every tool descriptor whose parameter schema is missing (falsy),
the derived function-call schema entry's parameters field equals the default
fallback schema, the object schema with a single required string field
city_name. -/
theorem toFunction_default_on_missing_schema (tool : Tool)
    (h : pyTruthy tool.inputSchema = false) :
    (toFunction tool).parameters = defaultSchema := by
  simp [toFunction, h]

theorem toFunction_default_on_missing_schema_witness :
    pyTruthy bareTool.inputSchema = false ∧
      (toFunction bareTool).parameters = defaultSchema :=
  ⟨rfl, toFunction_default_on_missing_schema bareTool rfl⟩

/-- C2: For every tool descriptor that has a (truthy) parameter schema, the
derived function-call schema entry's parameters field equals that schema
unchanged, and the entry is derived 1:1 from the descriptor: the name is
carried over and the description is carried over (defaulted to the empty
string only when absent or empty). -/
theorem toFunction_roundtrip (tool : Tool)
    (h : pyTruthy tool.inputSchema = true) :
    (toFunction tool).parameters = tool.inputSchema ∧
      (toFunction tool).name = tool.name ∧
      (toFunction tool).description = pyStrOr tool.description "" := by
  refine ⟨?_, rfl, rfl⟩
  simp [toFunction, h]

theorem toFunction_roundtrip_witness :
    pyTruthy weatherTool.inputSchema = true ∧
      ((toFunction weatherTool).parameters = weatherTool.inputSchema ∧
        (toFunction weatherTool).name = weatherTool.name ∧
        (toFunction weatherTool).description = pyStrOr weatherTool.description "") :=
  ⟨rfl, toFunction_roundtrip weatherTool rfl⟩

/-- C9: For every tool descriptor whose parameter schema is present but the
empty object (a falsy value), the derived entry's parameters field is the
default city_name fallback schema and not the descriptor's own empty schema:
presence is decided by truthiness, not by presence. -/
theorem toFunction_empty_schema_uses_default (tool : Tool)
    (h : tool.inputSchema = Json.obj []) :
    (toFunction tool).parameters = defaultSchema ∧
      (toFunction tool).parameters ≠ tool.inputSchema := by
  have h1 : (toFunction tool).parameters = defaultSchema := by
    simp [toFunction, pyTruthy, h]
  refine ⟨h1, ?_⟩
  rw [h1, h]
  simp [defaultSchema]

theorem toFunction_empty_schema_uses_default_witness :
    emptyTool.inputSchema = Json.obj [] ∧
      ((toFunction emptyTool).parameters = defaultSchema ∧
        (toFunction emptyTool).parameters ≠ emptyTool.inputSchema) :=
  ⟨rfl, toFunction_empty_schema_uses_default emptyTool rfl⟩

/-- C3: For every run in which the first completion reply contains no
function-call request, the returned with_mcp_tool record has tool_called,
tool_arguments and tool_result all absent or empty: tool_called and
tool_result are present bound to None and tool_arguments is absent. -/
theorem run_no_call_empty_tool_fields (env : Env) (q : String)
    (tools : List Tool) (msg1 msg2 : Message)
    (hh : env.handshake = Except.ok ())
    (hl : env.listTools = Except.ok tools)
    (hc1 : env.complete (firstReq q tools) = Except.ok msg1)
    (hfc : msg1.function_call = Option.none)
    (hc2 : env.complete (secondReq q) = Except.ok msg2) :
    ∃ wmt : List (String × PyVal),
      (run env q).fst = Except.ok (mkResult q wmt msg2) ∧
      dictGet wmt "tool_called" = Option.some PyVal.none ∧
      dictGet wmt "tool_result" = Option.some PyVal.none ∧
      dictGet wmt "tool_arguments" = Option.none := by
  refine ⟨withToolInit msg1, ?_, rfl, rfl, rfl⟩
  simp [run, hh, hl, hc1, hfc, finish, hc2]

theorem run_no_call_empty_tool_fields_witness :
    ∃ wmt : List (String × PyVal),
      (run envNoCall "how is the weather in Shenzhen").fst =
        Except.ok (mkResult "how is the weather in Shenzhen" wmt msgPlain) ∧
      dictGet wmt "tool_called" = Option.some PyVal.none ∧
      dictGet wmt "tool_result" = Option.some PyVal.none ∧
      dictGet wmt "tool_arguments" = Option.none :=
  run_no_call_empty_tool_fields envNoCall "how is the weather in Shenzhen"
    [weatherTool] msgNoCall msgPlain rfl rfl rfl rfl rfl

/-- C10: For every run in which the model makes no function-call request,
the returned with_mcp_tool record contains exactly the keys model_reply,
tool_called and tool_result in that order, the last two bound to None, and
no tool_arguments key at all: two fields are present-but-empty and one is
absent. -/
theorem run_no_call_dict_keys (env : Env) (q : String)
    (tools : List Tool) (msg1 msg2 : Message)
    (hh : env.handshake = Except.ok ())
    (hl : env.listTools = Except.ok tools)
    (hc1 : env.complete (firstReq q tools) = Except.ok msg1)
    (hfc : msg1.function_call = Option.none)
    (hc2 : env.complete (secondReq q) = Except.ok msg2) :
    (run env q).fst = Except.ok (mkResult q
        [ ("model_reply", contentVal msg1.content)
        , ("tool_called", PyVal.none)
        , ("tool_result", PyVal.none) ] msg2) ∧
      (withToolInit msg1).map Prod.fst = ["model_reply", "tool_called", "tool_result"] ∧
      "tool_arguments" ∉ (withToolInit msg1).map Prod.fst := by
  refine ⟨?_, rfl, by simp [withToolInit]⟩
  simp [run, hh, hl, hc1, hfc, finish, hc2, withToolInit]

theorem run_no_call_dict_keys_witness :
    (run envNoCall "how is the weather").fst = Except.ok (mkResult "how is the weather"
        [ ("model_reply", contentVal msgNoCall.content)
        , ("tool_called", PyVal.none)
        , ("tool_result", PyVal.none) ] msgPlain) ∧
      (withToolInit msgNoCall).map Prod.fst = ["model_reply", "tool_called", "tool_result"] ∧
      "tool_arguments" ∉ (withToolInit msgNoCall).map Prod.fst :=
  run_no_call_dict_keys envNoCall "how is the weather"
    [weatherTool] msgNoCall msgPlain rfl rfl rfl rfl rfl

/-- C4: For every run in which the first reply contains a function-call
request whose argument payload is not parseable, the run fails with an
argument-parse error and no tool is ever invoked (no call-tool event appears
in the trace). -/
theorem run_bad_args_parse_error (env : Env) (q : String)
    (tools : List Tool) (msg1 : Message) (fc : FunctionCallMsg)
    (hh : env.handshake = Except.ok ())
    (hl : env.listTools = Except.ok tools)
    (hc1 : env.complete (firstReq q tools) = Except.ok msg1)
    (hfc : msg1.function_call = Option.some fc)
    (hp : env.parse fc.arguments = Option.none) :
    (run env q).fst = Except.error (Err.argumentParseError fc.arguments) ∧
      ∀ n a, Event.callTool n a ∉ (run env q).snd := by
  have hr : run env q =
      (Except.error (Err.argumentParseError fc.arguments), trace1 q tools) := by
    simp [run, hh, hl, hc1, hfc, hp]
  rw [hr]
  refine ⟨rfl, ?_⟩
  intro n a hmem
  simp [trace1] at hmem

theorem run_bad_args_parse_error_witness :
    (run envBadArgs "how is the weather").fst =
        Except.error (Err.argumentParseError "garbage") ∧
      ∀ n a, Event.callTool n a ∉ (run envBadArgs "how is the weather").snd :=
  run_bad_args_parse_error envBadArgs "how is the weather"
    [weatherTool] msgBadCall { name := "get_weather", arguments := "garbage" }
    rfl rfl rfl rfl rfl

/-- C5: For every run in which the first reply requests a tool unknown to
the tool provider, the run fails with a tool-invocation error and never
returns a comparison result (so no result silently omitting the tool
output is produced). -/
theorem run_unknown_tool_error (env : Env) (q : String)
    (tools : List Tool) (msg1 : Message) (fc : FunctionCallMsg) (args : Json)
    (hh : env.handshake = Except.ok ())
    (hl : env.listTools = Except.ok tools)
    (hc1 : env.complete (firstReq q tools) = Except.ok msg1)
    (hfc : msg1.function_call = Option.some fc)
    (hp : env.parse fc.arguments = Option.some args)
    (hu : env.toolTable.find? (fun p => p.fst == fc.name) = Option.none) :
    (run env q).fst = Except.error (Err.toolInvocationError fc.name) ∧
      ∀ r, (run env q).fst ≠ Except.ok r := by
  have hct : callTool env fc.name args = Except.error (Err.toolInvocationError fc.name) := by
    simp [callTool, hu]
  have hr : (run env q).fst = Except.error (Err.toolInvocationError fc.name) := by
    simp [run, hh, hl, hc1, hfc, hp, hct]
  refine ⟨hr, ?_⟩
  rw [hr]
  intro r hr2
  exact Except.noConfusion hr2

theorem run_unknown_tool_error_witness :
    (run envUnknown "how is the weather").fst =
        Except.error (Err.toolInvocationError "get_time") ∧
      ∀ r, (run envUnknown "how is the weather").fst ≠ Except.ok r :=
  run_unknown_tool_error envUnknown "how is the weather"
    [weatherTool] msgUnknownCall { name := "get_time", arguments := "city payload" }
    cityArgs rfl rfl rfl rfl rfl rfl

/-- C6: No error from the completion endpoint or the tool channel is caught
inside run: a run only produces a comparison result when the handshake, the
tool listing, both completion calls, and (when a function call was
requested) the argument parse and the tool invocation all succeeded, so any
failure of one of these steps means no comparison result is produced. -/
theorem run_ok_requires_all_steps (env : Env) (q : String) (r : PyVal) (tr : List Event)
    (h : run env q = (Except.ok r, tr)) :
    env.handshake = Except.ok () ∧
      ∃ tools msg1 msg2,
        env.listTools = Except.ok tools ∧
        env.complete (firstReq q tools) = Except.ok msg1 ∧
        env.complete (secondReq q) = Except.ok msg2 ∧
        ∀ fc, msg1.function_call = Option.some fc →
          ∃ args res, env.parse fc.arguments = Option.some args ∧
            callTool env fc.name args = Except.ok res := by
  obtain ⟨tools, msg1, msg2, hh, hl, hc1, hc2, hcase⟩ := run_ok_shape env q r tr h
  refine ⟨hh, tools, msg1, msg2, hl, hc1, hc2, ?_⟩
  intro fc hfc
  rcases hcase with ⟨hnone, _, _⟩ | ⟨fc2, args, res, hsome, hp, hct, _, _⟩
  · rw [hnone] at hfc
    exact Option.noConfusion hfc
  · rw [hfc] at hsome
    obtain rfl := Option.some.inj hsome
    exact ⟨args, res, hp, hct⟩

theorem run_ok_requires_all_steps_witness :
    envNoCall.handshake = Except.ok () ∧
      ∃ tools msg1 msg2,
        envNoCall.listTools = Except.ok tools ∧
        envNoCall.complete (firstReq "the weather" tools) = Except.ok msg1 ∧
        envNoCall.complete (secondReq "the weather") = Except.ok msg2 ∧
        ∀ fc, msg1.function_call = Option.some fc →
          ∃ args res, envNoCall.parse fc.arguments = Option.some args ∧
            callTool envNoCall fc.name args = Except.ok res :=
  run_ok_requires_all_steps envNoCall "the weather"
    (mkResult "the weather" (withToolInit msgNoCall) msgPlain)
    (trace1 "the weather" [weatherTool] ++ [Event.complete (secondReq "the weather")])
    rfl

/-- C7: For every successful run the second completion invocation uses the
same user query and the same model as the first, passes no function schemas
and no function-call directive, and occurs after the first invocation and
after any tool call triggered by the first. -/
theorem run_second_call_same_query_no_functions (env : Env) (q : String) (r : PyVal)
    (tr : List Event) (h : run env q = (Except.ok r, tr)) :
    ∃ tools msg1,
      env.listTools = Except.ok tools ∧
      env.complete (firstReq q tools) = Except.ok msg1 ∧
      (secondReq q).model = (firstReq q tools).model ∧
      (secondReq q).messages = (firstReq q tools).messages ∧
      (secondReq q).functions = Option.none ∧
      (secondReq q).function_call = Option.none ∧
      ((msg1.function_call = Option.none ∧
          tr = [Event.init, Event.listTools, Event.complete (firstReq q tools),
            Event.complete (secondReq q)]) ∨
        (∃ fc args, msg1.function_call = Option.some fc ∧
          tr = [Event.init, Event.listTools, Event.complete (firstReq q tools),
            Event.callTool fc.name args, Event.complete (secondReq q)])) := by
  obtain ⟨tools, msg1, msg2, hh, hl, hc1, hc2, hcase⟩ := run_ok_shape env q r tr h
  refine ⟨tools, msg1, hl, hc1, rfl, rfl, rfl, rfl, ?_⟩
  rcases hcase with ⟨hnone, _, htr⟩ | ⟨fc, args, res, hsome, hp, hct, _, htr⟩
  · exact Or.inl ⟨hnone, by rw [htr]; rfl⟩
  · exact Or.inr ⟨fc, args, hsome, by rw [htr]; rfl⟩

theorem run_second_call_same_query_no_functions_witness :
    ∃ tools msg1,
      envCall.listTools = Except.ok tools ∧
      envCall.complete (firstReq "the weather" tools) = Except.ok msg1 ∧
      (secondReq "the weather").model = (firstReq "the weather" tools).model ∧
      (secondReq "the weather").messages = (firstReq "the weather" tools).messages ∧
      (secondReq "the weather").functions = Option.none ∧
      (secondReq "the weather").function_call = Option.none ∧
      ((msg1.function_call = Option.none ∧
          [Event.init, Event.listTools, Event.complete (firstReq "the weather" [weatherTool]),
              Event.callTool "get_weather" cityArgs, Event.complete (secondReq "the weather")] =
            [Event.init, Event.listTools, Event.complete (firstReq "the weather" tools),
              Event.complete (secondReq "the weather")]) ∨
        (∃ fc args, msg1.function_call = Option.some fc ∧
          [Event.init, Event.listTools, Event.complete (firstReq "the weather" [weatherTool]),
              Event.callTool "get_weather" cityArgs, Event.complete (secondReq "the weather")] =
            [Event.init, Event.listTools, Event.complete (firstReq "the weather" tools),
              Event.callTool fc.name args, Event.complete (secondReq "the weather")])) :=
  run_second_call_same_query_no_functions envCall "the weather"
    (mkResult "the weather"
      (dictUpdate (withToolInit msgCall) (toolUpdates "get_weather" cityArgs (Json.str "sunny")))
      msgPlain)
    (trace1 "the weather" [weatherTool] ++
      [Event.callTool "get_weather" cityArgs, Event.complete (secondReq "the weather")])
    rfl

/-- C8: Every successful run returns a dictionary with exactly the fields
user_query, with_mcp_tool and without_tool, where user_query equals the
input query unchanged and without_tool is a record holding the second
reply's model reply. -/
theorem run_result_fields (env : Env) (q : String) (r : PyVal) (tr : List Event)
    (h : run env q = (Except.ok r, tr)) :
    ∃ d msg2, r = PyVal.dict d ∧
      d.map Prod.fst = ["user_query", "with_mcp_tool", "without_tool"] ∧
      dictGet d "user_query" = Option.some (PyVal.str q) ∧
      env.complete (secondReq q) = Except.ok msg2 ∧
      dictGet d "without_tool" =
        Option.some (PyVal.dict [("model_reply", contentVal msg2.content)]) := by
  obtain ⟨tools, msg1, msg2, hh, hl, hc1, hc2, hcase⟩ := run_ok_shape env q r tr h
  rcases hcase with ⟨_, hr, _⟩ | ⟨fc, args, res, _, _, _, hr, _⟩
  · exact ⟨[ ("user_query", PyVal.str q)
      , ("with_mcp_tool", PyVal.dict (withToolInit msg1))
      , ("without_tool", PyVal.dict [("model_reply", contentVal msg2.content)]) ],
      msg2, by rw [hr]; rfl, rfl, rfl, hc2, rfl⟩
  · exact ⟨[ ("user_query", PyVal.str q)
      , ("with_mcp_tool",
          PyVal.dict (dictUpdate (withToolInit msg1) (toolUpdates fc.name args res)))
      , ("without_tool", PyVal.dict [("model_reply", contentVal msg2.content)]) ],
      msg2, by rw [hr]; rfl, rfl, rfl, hc2, rfl⟩

theorem run_result_fields_witness :
    ∃ d msg2,
      mkResult "the weather in Shenzhen"
          (dictUpdate (withToolInit msgCall)
            (toolUpdates "get_weather" cityArgs (Json.str "sunny"))) msgPlain =
        PyVal.dict d ∧
      d.map Prod.fst = ["user_query", "with_mcp_tool", "without_tool"] ∧
      dictGet d "user_query" = Option.some (PyVal.str "the weather in Shenzhen") ∧
      envCall.complete (secondReq "the weather in Shenzhen") = Except.ok msg2 ∧
      dictGet d "without_tool" =
        Option.some (PyVal.dict [("model_reply", contentVal msg2.content)]) :=
  run_result_fields envCall "the weather in Shenzhen"
    (mkResult "the weather in Shenzhen"
      (dictUpdate (withToolInit msgCall) (toolUpdates "get_weather" cityArgs (Json.str "sunny")))
      msgPlain)
    (trace1 "the weather in Shenzhen" [weatherTool] ++
      [Event.callTool "get_weather" cityArgs,
        Event.complete (secondReq "the weather in Shenzhen")])
    rfl

end ApikeyClient
